import Mathlib

/-!
Shallow embedding of the content-scoring core of `src/app.py` (an SEO content
tool).  Python floats are modelled as exact rationals (`ℚ`); the decimal
literals of the source (`206.835`, `1.015`, `84.6`, `1.5`, `2.5`, the weights)
are exact rationals, so every formula below is the exact real-arithmetic
formula the source writes down.  Python strings are modelled over their
character lists; the regex class `\w` and the `str` case/space predicates are
modelled on ASCII characters (letters, digits, underscore).  External effects
(the OpenAI chat call, the HTTP fetch) are modelled as explicit `Except`
valued parameters, so the `try/except` control flow of the source becomes a
`match`; everything else is translated line by line.
-/

namespace SeoApp

/-- ASCII word character, the class matched by the regex `\w`. -/
def isWordChar (c : Char) : Bool := c.isAlphanum || c == '_'

/-- Membership in the vowel string `aeiouy` of `calculate_readability`. -/
def isVowel (c : Char) : Bool :=
  c == 'a' || c == 'e' || c == 'i' || c == 'o' || c == 'u' || c == 'y'

/-- Python `s.lower()` (ASCII), as a character list. -/
def lowerChars (s : String) : List Char := s.data.map Char.toLower

/-- Auxiliary for `runsOf`: scans the list keeping the current (reversed) run
of characters satisfying `p` in `acc`, emitting it when it ends. -/
def runsAux (p : Char → Bool) : List Char → List Char → List (List Char)
  | [], acc => if acc.isEmpty then [] else [acc.reverse]
  | c :: cs, acc =>
    if p c then runsAux p cs (c :: acc)
    else if acc.isEmpty then runsAux p cs []
    else acc.reverse :: runsAux p cs []

/-- Maximal runs of characters satisfying `p`: the list of non-empty blocks
of `p`-characters of `l`, in order. -/
def runsOf (p : Char → Bool) (l : List Char) : List (List Char) := runsAux p l []

/-- Python `re.findall(r'\w+', content.lower())` (src/app.py line 204 and
line 186): the maximal runs of word characters of the lowercased content. -/
def findWordTokens (content : String) : List (List Char) :=
  runsOf isWordChar (lowerChars content)

/-- Python `word_count = len(words)` (src/app.py line 205). -/
def word_count (content : String) : ℕ := (findWordTokens content).length

/-- Python `keyword_occurrences = words.count(keyword.lower())`
(src/app.py line 206): exact whole-token equality with the lowercased keyword. -/
def keyword_occurrences (content keyword : String) : ℕ :=
  (findWordTokens content).count (lowerChars keyword)

/-- Python `keyword_density = (keyword_occurrences / word_count) * 100 if
word_count > 0 else 0` (src/app.py line 207, identical at line 189). -/
def keyword_density (content keyword : String) : ℚ :=
  if word_count content > 0 then
    ((keyword_occurrences content keyword : ℚ) / (word_count content : ℚ)) * 100
  else 0

/-- Python round-half-to-even of a rational to an integer (the tie rule of
the builtin `round`). -/
def pyRound (q : ℚ) : ℤ :=
  if q - ⌊q⌋ < 1/2 then ⌊q⌋
  else if q - ⌊q⌋ > 1/2 then ⌊q⌋ + 1
  else if Even ⌊q⌋ then ⌊q⌋ else ⌊q⌋ + 1

/-- Python `round(q, 1)`. -/
def round1 (q : ℚ) : ℚ := (pyRound (q * 10) : ℚ) / 10

/-- Python `round(q, 2)`. -/
def round2 (q : ℚ) : ℚ := (pyRound (q * 100) : ℚ) / 100

/-- Python `text.split('.')` of `calculate_readability` (src/app.py line
143): split on every literal period, keeping empty pieces. -/
def sentencesOf (text : String) : List (List Char) := text.data.splitOn '.'

/-- Python `text.split()` (src/app.py line 144): the whitespace-separated
words, i.e. maximal runs of non-whitespace characters. -/
def textWords (text : String) : List (List Char) :=
  runsOf (fun c => !c.isWhitespace) text.data

/-- Inner loop of the syllable approximation (src/app.py lines 155-161):
counts characters that are vowels not preceded by a vowel; the flag is the
running `prev_char_vowel`. -/
def countVowelGroups : List Char → Bool → ℕ
  | [], _ => 0
  | c :: cs, prev =>
    (if isVowel c && !prev then 1 else 0) + countVowelGroups cs (isVowel c)

/-- Syllables of one word (src/app.py lines 154-166): vowel groups of the
lowercased word, with a minimum of one. -/
def word_syllables (w : List Char) : ℕ :=
  let s := countVowelGroups (w.map Char.toLower) false
  if s = 0 then 1 else s

/-- Python `total_syllables` accumulated over the words (src/app.py line 166). -/
def total_syllables (ws : List (List Char)) : ℕ := (ws.map word_syllables).sum

/-- Python `calculate_readability(text)` (src/app.py lines 141-171). -/
def calculate_readability (text : String) : ℚ :=
  let sentences := sentencesOf text
  let words := textWords text
  if sentences.length = 0 ∨ words.length = 0 then 0
  else
    let avg_sentence_length : ℚ := (words.length : ℚ) / (sentences.length : ℚ)
    let avg_syllables_per_word : ℚ := (total_syllables words : ℚ) / (words.length : ℚ)
    let readability : ℚ :=
      206.835 - (1.015 * avg_sentence_length) - (84.6 * avg_syllables_per_word)
    max 0 (min 100 readability)

/-- Python `keyword_score = max(0, min(100, 100 - abs(keyword_density - 1.5) * 20))`
(src/app.py line 210). -/
def keyword_score (content keyword : String) : ℚ :=
  max 0 (min 100 (100 - |keyword_density content keyword - 1.5| * 20))

/-- One entry of the competitor list built by `analyze_serp_competitors`
(src/app.py lines 191-198). -/
structure CompetitorData where
  url : String
  title : String
  position : ℕ
  word_count : ℕ
  keyword_density : ℚ
  readability_score : ℚ
deriving DecidableEq, Repr

/-- The keyword-stuffing warning appended by `score_content` (src/app.py line
226); it carries the density rounded to one decimal that the message
interpolates. -/
inductive Warning where
  | keyword_stuffing (density_rounded : ℚ)
deriving DecidableEq, Repr

/-- The `category_scores` sub-dict of the `score_content` result
(src/app.py lines 230-235). -/
structure CategoryScores where
  keyword_optimization : ℚ
  content_quality : ℚ
  technical_seo : ℚ
  competitive_alignment : ℚ
deriving DecidableEq, Repr

/-- The dict returned by `score_content` (src/app.py lines 228-237). -/
structure ScoreResult where
  total_score : ℚ
  category_scores : CategoryScores
  warnings : List Warning
deriving DecidableEq, Repr

/-- Python `score_content(content, keyword, competitors)` (src/app.py lines
202-237).  The `competitors` argument is accepted, as in the source, and never
read. -/
def score_content (content keyword : String) (competitors : List CompetitorData) :
    ScoreResult :=
  let kd := keyword_density content keyword
  let ks := keyword_score content keyword
  let quality_score := calculate_readability content
  let technical_score : ℚ := 50
  let competitive_score : ℚ := 50
  let total_score : ℚ :=
    ks * 0.3 + quality_score * 0.25 + technical_score * 0.25 + competitive_score * 0.2
  let warnings : List Warning :=
    if kd > 2.5 then [Warning.keyword_stuffing (round1 kd)] else []
  { total_score := round1 total_score
    category_scores :=
      { keyword_optimization := round1 ks
        content_quality := round1 quality_score
        technical_seo := round1 technical_score
        competitive_alignment := round1 competitive_score }
    warnings := warnings }

/-- Python `get_score_class(score)` (src/app.py lines 239-247). -/
def get_score_class (score : ℚ) : String :=
  if score ≥ 80 then "score-excellent"
  else if score ≥ 60 then "score-good"
  else if score ≥ 40 then "score-fair"
  else "score-poor"

/-! Spec-side definitions, written from the wording of the claims, to be
compared with the definitions above that embed the source. -/

/-- Spec-side tokenizer: the `\w+` tokens of the lowercased content are the
non-empty pieces left between its non-word characters. -/
def wordTokens_spec (content : String) : List (List Char) :=
  ((lowerChars content).splitOnP fun c => !isWordChar c).filter fun t => !t.isEmpty

/-- Spec-side occurrence count: the number of tokens equal, as strings, to
the lowercased keyword. -/
def keywordOccurrences_spec (content keyword : String) : ℕ :=
  ((wordTokens_spec content).filter fun t => t == lowerChars keyword).length

/-- Spec-side keyword density: occurrences divided by total word tokens,
times 100, and 0 when there are no tokens. -/
def keywordDensity_spec (content keyword : String) : ℚ :=
  if (wordTokens_spec content).length = 0 then 0
  else ((keywordOccurrences_spec content keyword : ℚ) /
    ((wordTokens_spec content).length : ℚ)) * 100

/-- Spec-side keyword score: 100 − |density − 1.5| × 20 clamped to [0,100]. -/
def keywordScore_spec (content keyword : String) : ℚ :=
  min 100 (max 0 (100 - |keywordDensity_spec content keyword - 1.5| * 20))

end SeoApp

namespace SeoApp

/-- Scanning with run accumulator `acc` computes the non-empty pieces of
`splitOnP`, with `acc.reverse` prepended to the first piece. -/
theorem runsAux_eq_splitOnP (p : Char → Bool) (l : List Char) :
    ∀ acc : List Char,
      runsAux p l acc =
        ((l.splitOnP fun c => !p c).modifyHead fun t => acc.reverse ++ t).filter
          fun t => !t.isEmpty := by
  induction l with
  | nil =>
    intro acc
    by_cases h : acc = []
    · subst h; simp [runsAux, List.splitOnP_nil]
    · simp [runsAux, List.splitOnP_nil, h]
  | cons c cs ih =>
    intro acc
    obtain ⟨hd, tl, hsp⟩ := List.exists_cons_of_ne_nil (List.splitOnP_ne_nil _ cs)
    by_cases hc : p c
    · rw [show runsAux p (c :: cs) acc = runsAux p cs (c :: acc) by simp [runsAux, hc]]
      rw [ih (c :: acc), List.splitOnP_cons, hsp]
      simp [hc, List.append_assoc]
    · by_cases ha : acc = []
      · subst ha
        rw [show runsAux p (c :: cs) [] = runsAux p cs [] by simp [runsAux, hc]]
        rw [ih [], List.splitOnP_cons, hsp]
        simp [hc]
      · rw [show runsAux p (c :: cs) acc = acc.reverse :: runsAux p cs [] by
          simp [runsAux, hc, ha]]
        rw [ih [], List.splitOnP_cons, hsp]
        simp [hc, ha]

/-- The maximal `p`-runs of a list are the non-empty pieces of splitting it
on the characters that fail `p`. -/
theorem runsOf_eq_splitOnP (p : Char → Bool) (l : List Char) :
    runsOf p l = ((l.splitOnP fun c => !p c).filter fun t => !t.isEmpty) := by
  obtain ⟨hd, tl, hsp⟩ := List.exists_cons_of_ne_nil (List.splitOnP_ne_nil _ l)
  rw [runsOf, runsAux_eq_splitOnP p l [], hsp]
  simp

/-- The token list of the source agrees with the spec-side tokenizer. -/
theorem findWordTokens_eq_spec (content : String) :
    findWordTokens content = wordTokens_spec content := by
  rw [findWordTokens, wordTokens_spec, runsOf_eq_splitOnP]

/-- The occurrence count of the source agrees with the spec-side count. -/
theorem keyword_occurrences_eq_spec (content keyword : String) :
    keyword_occurrences content keyword = keywordOccurrences_spec content keyword := by
  rw [keyword_occurrences, keywordOccurrences_spec, findWordTokens_eq_spec,
    List.count_eq_countP, List.countP_eq_length_filter]

/-- The keyword density of the source agrees with the spec-side density. -/
theorem keyword_density_eq_spec (content keyword : String) :
    keyword_density content keyword = keywordDensity_spec content keyword := by
  simp only [keyword_density, keywordDensity_spec, word_count,
    findWordTokens_eq_spec, keyword_occurrences_eq_spec]
  by_cases h : (wordTokens_spec content).length = 0
  · simp [h]
  · simp [h, Nat.pos_of_ne_zero h]

/-- C1: for every content string and keyword, `score_content` tokenizes the
lowercased content into `\w+` word tokens, counts occurrences of the
lowercased keyword by exact whole-token string equality, and its keyword
density is occurrences divided by total word tokens, times 100, when the
token count is positive, and 0 when the token count is zero. -/
theorem claim_C1 (content keyword : String) :
    findWordTokens content = wordTokens_spec content ∧
    keyword_occurrences content keyword = keywordOccurrences_spec content keyword ∧
    keyword_density content keyword = keywordDensity_spec content keyword :=
  ⟨findWordTokens_eq_spec content, keyword_occurrences_eq_spec content keyword,
    keyword_density_eq_spec content keyword⟩

/-- C2: for every content string and keyword, the keyword-optimization
category score computed by `score_content` equals 100 − |density − 1.5| × 20
clamped to the interval [0,100], where density is the keyword density of the
content. -/
theorem claim_C2 (content keyword : String) :
    keyword_score content keyword = keywordScore_spec content keyword := by
  rw [keyword_score, keywordScore_spec, keyword_density_eq_spec,
    max_min_distrib_left]
  norm_num

end SeoApp

namespace SeoApp

/-- Spec-side syllable approximation, written from the wording of C3: the
number of vowel-group transitions of the lowercased word, with no minimum. -/
def wordSyllables_spec (w : List Char) : ℕ :=
  countVowelGroups (w.map Char.toLower) false

/-- Spec-side readability, written from the wording of C3: sentences split
on literal periods, ASL as words per sentence piece, ASW as the average
vowel-group count per word, and 206.835 − 1.015 × ASL − 84.6 × ASW clamped
to [0,100]; 0 for a text with no words. -/
def readability_spec (text : String) : ℚ :=
  let sentences := sentencesOf text
  let words := textWords text
  if words.length = 0 then 0
  else
    let asl : ℚ := (words.length : ℚ) / (sentences.length : ℚ)
    let asw : ℚ := ((words.map wordSyllables_spec).sum : ℚ) / (words.length : ℚ)
    min 100 (max 0 (206.835 - 1.015 * asl - 84.6 * asw))

/-- Amended spec-side readability: as C3 states it, except that every word
counts as at least one syllable, i.e. a word uses max 1 (vowel groups). -/
def readability_amended (text : String) : ℚ :=
  let sentences := sentencesOf text
  let words := textWords text
  if words.length = 0 then 0
  else
    let asl : ℚ := (words.length : ℚ) / (sentences.length : ℚ)
    let asw : ℚ :=
      ((words.map fun w => max 1 (wordSyllables_spec w)).sum : ℚ) / (words.length : ℚ)
    min 100 (max 0 (206.835 - 1.015 * asl - 84.6 * asw))

/-- The source syllable count is the spec-side count floored at one. -/
theorem word_syllables_eq_max (w : List Char) :
    word_syllables w = max 1 (wordSyllables_spec w) := by
  rw [word_syllables, wordSyllables_spec]
  rcases h : countVowelGroups (w.map Char.toLower) false with _ | n <;> simp

/-- C3 (counterexample): the text "bcd banana banana banana" contains words,
yet `calculate_readability` returns 0 while the formula of the claim — with
syllables counted purely as vowel-group transitions, so that the vowel-less
word "bcd" counts 0 — yields 12.425; the claim as stated is false because the
source forces a minimum of one syllable per word. -/
theorem claim_C3_counterexample :
    (textWords "bcd banana banana banana").length ≠ 0 ∧
    calculate_readability "bcd banana banana banana" = 0 ∧
    readability_spec "bcd banana banana banana" = 12.425 := by
  have hsent : (sentencesOf "bcd banana banana banana").length = 1 := by decide
  have hwords : (textWords "bcd banana banana banana").length = 4 := by decide
  have hsyl : total_syllables (textWords "bcd banana banana banana") = 10 := by decide
  have hsyl2 : ((textWords "bcd banana banana banana").map wordSyllables_spec).sum = 9 := by
    decide
  refine ⟨by simp [hwords], ?_, ?_⟩
  · simp only [calculate_readability, hsent, hwords, hsyl]
    norm_num [min_def, max_def]
  · simp only [readability_spec, hsent, hwords, hsyl2]
    norm_num [min_def, max_def]

/-- C3 (amended): for every text containing at least one whitespace-separated
word, `calculate_readability` splits sentences on literal periods, computes
ASL as words per sentence piece, approximates the syllables of each word by
its vowel-group transitions over the vowels aeiouy with a minimum of one
syllable per word, averages them as ASW, and returns
206.835 − 1.015 × ASL − 84.6 × ASW clamped to [0,100]; for a text with no
words it returns 0 (as does the amended formula). -/
theorem claim_C3 (text : String) :
    calculate_readability text = readability_amended text := by
  by_cases h : textWords text = []
  · have hw : (textWords text).length = 0 := by simp [h]
    simp only [calculate_readability, readability_amended, hw]
    simp
  · have hs : sentencesOf text ≠ [] := List.splitOnP_ne_nil _ _
    have hw : (textWords text).length ≠ 0 := by simpa [List.length_eq_zero] using h
    have hsl : (sentencesOf text).length ≠ 0 := by
      simpa [List.length_eq_zero] using hs
    have hmap : word_syllables = fun w => max 1 (wordSyllables_spec w) :=
      funext word_syllables_eq_max
    simp only [calculate_readability, readability_amended, total_syllables, hmap,
      hw, hsl, if_neg, or_self, if_false, or_false, false_or]
    rw [max_min_distrib_left]
    norm_num

/-- Spec-side total score, written from C4: weights 0.30, 0.25, 0.25, 0.20,
the technical and competitive categories hardcoded at 50, the result rounded
to one decimal place. -/
def totalScore_spec (content keyword : String) : ℚ :=
  round1 (0.30 * keyword_score content keyword +
    0.25 * calculate_readability content + 0.25 * 50 + 0.20 * 50)

/-- C4: the total score returned by `score_content` is the weighted sum
0.30 × keyword score + 0.25 × readability + 0.25 × technical + 0.20 ×
competitive, with the technical and competitive categories the hardcoded
constant 50 regardless of input, rounded to one decimal place. -/
theorem claim_C4 (content keyword : String) (competitors : List CompetitorData) :
    (score_content content keyword competitors).total_score =
      totalScore_spec content keyword ∧
    (score_content content keyword competitors).category_scores.technical_seo = 50 ∧
    (score_content content keyword competitors).category_scores.competitive_alignment
      = 50 := by
  have htot : (score_content content keyword competitors).total_score =
      round1 (keyword_score content keyword * 0.3 +
        calculate_readability content * 0.25 + 50 * 0.25 + 50 * 0.2) := rfl
  have h50 : round1 50 = 50 := by
    have h : ⌊(50 * 10 : ℚ)⌋ = 500 := by norm_num
    simp only [round1, pyRound, h]
    norm_num
  refine ⟨?_, ?_, ?_⟩
  · rw [htot, totalScore_spec]
    exact congrArg round1 (by ring)
  · show round1 50 = 50; exact h50
  · show round1 50 = 50; exact h50

/-- C5: the warnings list of `score_content` holds exactly the one
keyword-stuffing warning when the keyword density exceeds 2.5 percent, and
is empty when the density is 2.5 or below. -/
theorem claim_C5 (content keyword : String) (competitors : List CompetitorData) :
    ((score_content content keyword competitors).warnings =
        [Warning.keyword_stuffing (round1 (keyword_density content keyword))] ↔
      keyword_density content keyword > 2.5) ∧
    ((score_content content keyword competitors).warnings = [] ↔
      keyword_density content keyword ≤ 2.5) := by
  have hw : (score_content content keyword competitors).warnings =
      if keyword_density content keyword > 2.5 then
        [Warning.keyword_stuffing (round1 (keyword_density content keyword))]
      else [] := rfl
  rw [hw]
  by_cases h : keyword_density content keyword > 2.5
  · simp [h, not_le.mpr h]
  · simp [h, not_lt.mp h]

/-- C8: `score_content` is a pure function of content and keyword alone: for
the same content and keyword, any two competitors lists give identical
results (so in particular repeated calls are deterministic). -/
theorem claim_C8 (content keyword : String)
    (competitors₁ competitors₂ : List CompetitorData) :
    score_content content keyword competitors₁ =
      score_content content keyword competitors₂ := rfl

end SeoApp

namespace SeoApp

/-- Rounding half-to-even never rounds above an integer upper bound. -/
theorem pyRound_le {q : ℚ} {z : ℤ} (h : q ≤ (z : ℚ)) : pyRound q ≤ z := by
  have hf : ⌊q⌋ ≤ z := by simpa using Int.floor_le_floor h
  have hfl : (⌊q⌋ : ℚ) ≤ q := Int.floor_le q
  rw [pyRound]
  split_ifs with h1 h2 h3
  · exact hf
  · have h1' : (1 : ℚ)/2 ≤ q - ⌊q⌋ := not_lt.mp h1
    have : (⌊q⌋ : ℚ) < (z : ℚ) := by linarith
    have : ⌊q⌋ < z := by exact_mod_cast this
    omega
  · exact hf
  · have h1' : (1 : ℚ)/2 ≤ q - ⌊q⌋ := not_lt.mp h1
    have : (⌊q⌋ : ℚ) < (z : ℚ) := by linarith
    have : ⌊q⌋ < z := by exact_mod_cast this
    omega

/-- Rounding half-to-even never rounds below an integer lower bound. -/
theorem le_pyRound {q : ℚ} {z : ℤ} (h : (z : ℚ) ≤ q) : z ≤ pyRound q := by
  have hf : z ≤ ⌊q⌋ := Int.le_floor.mpr h
  rw [pyRound]
  split_ifs <;> omega

/-- One-decimal rounding respects an upper bound with one decimal. -/
theorem round1_le {q : ℚ} {z : ℤ} (h : q * 10 ≤ (z : ℚ)) : round1 q ≤ (z : ℚ)/10 := by
  have : (pyRound (q * 10) : ℚ) ≤ (z : ℚ) := by exact_mod_cast pyRound_le h
  rw [round1]; linarith

/-- One-decimal rounding respects a lower bound with one decimal. -/
theorem le_round1 {q : ℚ} {z : ℤ} (h : (z : ℚ) ≤ q * 10) : (z : ℚ)/10 ≤ round1 q := by
  have : (z : ℚ) ≤ (pyRound (q * 10) : ℚ) := by exact_mod_cast le_pyRound h
  rw [round1]; linarith

/-- The clamped keyword score is nonnegative. -/
theorem keyword_score_nonneg (content keyword : String) :
    0 ≤ keyword_score content keyword := le_max_left 0 _

/-- The clamped keyword score is at most 100. -/
theorem keyword_score_le (content keyword : String) :
    keyword_score content keyword ≤ 100 :=
  max_le (by norm_num) (min_le_left _ _)

/-- The readability score is nonnegative. -/
theorem readability_nonneg (text : String) : 0 ≤ calculate_readability text := by
  rw [calculate_readability]
  split
  · exact le_refl 0
  · exact le_max_left 0 _

/-- The readability score is at most 100. -/
theorem readability_le (text : String) : calculate_readability text ≤ 100 := by
  rw [calculate_readability]
  split
  · norm_num
  · exact max_le (by norm_num) (min_le_left _ _)

/-- A score strictly below 80 is never classed excellent. -/
theorem get_score_class_ne_excellent {x : ℚ} (h : x < 80) :
    get_score_class x ≠ "score-excellent" := by
  rw [get_score_class, if_neg (not_le.mpr h)]
  split_ifs <;> decide

/-- C6: for every content, keyword and competitors list the total score of
`score_content` lies in [22.5, 77.5] — the placeholder categories contribute
a fixed 22.5 and the two variable categories at most 55 — so the overall
score never reaches 80 and `get_score_class` never returns
"score-excellent" on it. -/
theorem claim_C6 (content keyword : String) (competitors : List CompetitorData) :
    22.5 ≤ (score_content content keyword competitors).total_score ∧
    (score_content content keyword competitors).total_score ≤ 77.5 ∧
    get_score_class (score_content content keyword competitors).total_score ≠
      "score-excellent" := by
  have htot : (score_content content keyword competitors).total_score =
      round1 (keyword_score content keyword * 0.3 +
        calculate_readability content * 0.25 + 50 * 0.25 + 50 * 0.2) := rfl
  have hks0 := keyword_score_nonneg content keyword
  have hks1 := keyword_score_le content keyword
  have hq0 := readability_nonneg content
  have hq1 := readability_le content
  have hlo : ((225 : ℤ) : ℚ) ≤ (keyword_score content keyword * 0.3 +
      calculate_readability content * 0.25 + 50 * 0.25 + 50 * 0.2) * 10 := by
    push_cast; linarith
  have hhi : (keyword_score content keyword * 0.3 +
      calculate_readability content * 0.25 + 50 * 0.25 + 50 * 0.2) * 10 ≤
      ((775 : ℤ) : ℚ) := by
    push_cast; linarith
  have hlo' := le_round1 hlo
  have hhi' := round1_le hhi
  rw [htot]
  refine ⟨by push_cast at hlo' ⊢; linarith, by push_cast at hhi' ⊢; linarith, ?_⟩
  apply get_score_class_ne_excellent
  push_cast at hhi'
  linarith

end SeoApp

namespace SeoApp

/-- One search result of the mocked scraper (src/app.py lines 97-101). -/
structure SerpResult where
  position : ℕ
  title : String
  url : String
deriving DecidableEq, Repr

/-- Python `keyword.replace(" ", "-")` (src/app.py lines 98-100): every
space becomes a hyphen. -/
def hyphenate (keyword : String) : String :=
  String.map (fun c => if c = ' ' then '-' else c) keyword

/-- Python `scrape_top_results(keyword, num_results)` (src/app.py lines
95-103): a fixed three-entry mock list truncated to the requested count. -/
def scrape_top_results (keyword : String) (num_results : ℕ) : List SerpResult :=
  let mock_results : List SerpResult :=
    [ { position := 1, title := "Example Page 1 for " ++ keyword,
        url := "https://example.com/" ++ hyphenate keyword },
      { position := 2, title := "Example Page 2 for " ++ keyword,
        url := "https://example.org/" ++ hyphenate keyword },
      { position := 3, title := "Example Page 3 for " ++ keyword,
        url := "https://example.net/" ++ hyphenate keyword } ]
  mock_results.take num_results

/-- Parsed page fields produced by a successful fetch of
`extract_page_data` (title, meta description, joined paragraph text). -/
structure PageData where
  title : String
  meta_description : String
  text : String
deriving DecidableEq, Repr

/-- The dict returned by `extract_page_data` (src/app.py lines 127-138):
either the full success dict, or the dict holding only the url and the
error string. -/
inductive ExtractResult where
  | success (url title meta_description text : String)
  | failure (url error : String)
deriving DecidableEq, Repr

/-- Python `extract_page_data(url)` (src/app.py lines 105-138).  The network
fetch and HTML parse inside the `try` block are modelled by the `fetch`
parameter: `Except.ok` carries the parsed page, `Except.error` the message
of the exception caught by the `except` clause. -/
def extract_page_data (url : String) (fetch : String → Except String PageData) :
    ExtractResult :=
  match fetch url with
  | Except.ok page =>
      ExtractResult.success url page.title page.meta_description page.text
  | Except.error e => ExtractResult.failure url e

/-- Python `page_data.get('text', '')` (src/app.py line 183): the text field
of a success dict, the empty-string default on the error dict. -/
def pageText : ExtractResult → String
  | ExtractResult.success _ _ _ t => t
  | ExtractResult.failure _ _ => ""

/-- One entry of the competitor list built by `analyze_serp_competitors`
(src/app.py lines 183-198); the density computation at lines 186-189 is the
same formula as in `score_content`, so it reuses the shared definitions. -/
def competitorEntry (result : SerpResult) (page : ExtractResult)
    (keyword : String) : CompetitorData :=
  let text_content := pageText page
  { url := result.url
    title := result.title
    position := result.position
    word_count := word_count text_content
    keyword_density := round2 (keyword_density text_content keyword)
    readability_score := calculate_readability text_content }

/-- Python `analyze_serp_competitors(keyword, num_results)` (src/app.py
lines 173-200), with the per-url fetch modelled as in `extract_page_data`. -/
def analyze_serp_competitors (keyword : String) (num_results : ℕ)
    (fetch : String → Except String PageData) : List CompetitorData :=
  (scrape_top_results keyword num_results).map
    fun r => competitorEntry r (extract_page_data r.url fetch) keyword

/-- Python `generate_ai_response(prompt, max_tokens)` (src/app.py lines
74-92).  The OpenAI chat call inside the `try` block is modelled by the
`api` parameter mapping the prompt to either the reply content
(`Except.ok`) or the message of the exception caught by the `except`
clause; `openai_api_key` is the sidebar value the source reads. -/
def generate_ai_response (openai_api_key : String)
    (api : String → Except String String) (prompt : String) : String :=
  if openai_api_key = "" then
    "Error: OpenAI API key not configured. Please add it in the sidebar."
  else
    match api prompt with
    | Except.ok content => content
    | Except.error e => "Error generating response: " ++ e

end SeoApp

namespace SeoApp

/-- Whether a string (as characters) is a single `\w+` token: non-empty and
made only of word characters. -/
def isSingleWordToken (s : List Char) : Bool := !s.isEmpty && s.all isWordChar

/-- Tokens emitted by the scan are non-empty runs of `p`-characters,
provided the accumulator holds `p`-characters. -/
theorem mem_runsAux (p : Char → Bool) (l : List Char) :
    ∀ acc t, (∀ c ∈ acc, p c) → t ∈ runsAux p l acc →
      t ≠ [] ∧ ∀ c ∈ t, p c := by
  induction l with
  | nil =>
    intro acc t hacc ht
    rw [runsAux] at ht
    by_cases h : acc = []
    · simp [h] at ht
    · rw [if_neg (by simpa using h)] at ht
      rcases List.mem_singleton.mp ht with rfl
      refine ⟨by simpa using h, fun c hc => hacc c (List.mem_reverse.mp hc)⟩
  | cons c cs ih =>
    intro acc t hacc ht
    rw [runsAux] at ht
    by_cases hc : p c
    · rw [if_pos hc] at ht
      refine ih (c :: acc) t ?_ ht
      intro x hx
      rcases List.mem_cons.mp hx with rfl | hx
      · exact hc
      · exact hacc x hx
    · rw [if_neg hc] at ht
      by_cases ha : acc = []
      · rw [if_pos (by simp [ha])] at ht
        exact ih [] t (by simp) ht
      · rw [if_neg (by simpa using ha)] at ht
        rcases List.mem_cons.mp ht with rfl | hmem
        · exact ⟨by simpa using ha, fun x hx => hacc x (List.mem_reverse.mp hx)⟩
        · exact ih [] t (by simp) hmem

/-- Every token found by the `\w+` scan is a single word token. -/
theorem mem_findWordTokens (content : String) (t : List Char)
    (ht : t ∈ findWordTokens content) : t ≠ [] ∧ ∀ c ∈ t, isWordChar c :=
  mem_runsAux isWordChar (lowerChars content) [] t (by simp) ht

/-- A keyword that is not a single `\w+` token matches no token of any
content. -/
theorem keyword_occurrences_eq_zero (content keyword : String)
    (h : isSingleWordToken (lowerChars keyword) = false) :
    keyword_occurrences content keyword = 0 := by
  rw [keyword_occurrences, List.count_eq_zero]
  intro hmem
  obtain ⟨hne, hall⟩ := mem_findWordTokens content _ hmem
  rw [isSingleWordToken] at h
  simp only [Bool.and_eq_false_iff, Bool.not_eq_false', List.isEmpty_iff,
    List.all_eq_true] at h
  rcases h with h | h
  · exact hne h
  · have h' : ¬ ∀ c ∈ lowerChars keyword, isWordChar c = true := by
      rw [← List.all_eq_true]
      simp [h]
    push_neg at h'
    obtain ⟨c, hc, hcw⟩ := h'
    exact hcw (hall c hc)

/-- A zero occurrence count makes the density zero. -/
theorem keyword_density_of_zero (content keyword : String)
    (h : keyword_occurrences content keyword = 0) :
    keyword_density content keyword = 0 := by
  rw [keyword_density, h]
  split_ifs <;> simp

/-- At density zero the clamped keyword score is exactly 70. -/
theorem keyword_score_of_density_zero (content keyword : String)
    (h : keyword_density content keyword = 0) :
    keyword_score content keyword = 70 := by
  rw [keyword_score, h,
    show |(0 : ℚ) - 1.5| = 1.5 by rw [abs_sub_comm]; rw [abs_of_nonneg] <;> norm_num]
  norm_num [min_def, max_def]

/-- Rounding zero to two decimals gives zero. -/
theorem round2_zero : round2 0 = 0 := by
  have h : ⌊((0 : ℚ) * 100)⌋ = 0 := by norm_num
  simp only [round2, pyRound, h]
  norm_num

/-- C7: for every keyword that is not a single `\w+` token (for example one
containing a space), the occurrence count is 0 in every content — both in
`score_content` and in the identical density computation of
`analyze_serp_competitors` — so the keyword density is 0 and the
keyword-optimization score is exactly 70. -/
theorem claim_C7 (keyword : String)
    (h : isSingleWordToken (lowerChars keyword) = false) :
    (∀ content : String,
      keyword_occurrences content keyword = 0 ∧
      keyword_density content keyword = 0 ∧
      keyword_score content keyword = 70) ∧
    (∀ (result : SerpResult) (page : ExtractResult),
      (competitorEntry result page keyword).keyword_density = 0) := by
  have hocc : ∀ content, keyword_occurrences content keyword = 0 :=
    fun content => keyword_occurrences_eq_zero content keyword h
  have hden : ∀ content, keyword_density content keyword = 0 :=
    fun content => keyword_density_of_zero content keyword (hocc content)
  refine ⟨fun content => ⟨hocc content, hden content,
    keyword_score_of_density_zero content keyword (hden content)⟩, ?_⟩
  intro result page
  show round2 (keyword_density (pageText page) keyword) = 0
  rw [hden (pageText page), round2_zero]

/-- Witness for C7: the two-word keyword "seo tools" is not a `\w+` token,
and on a concrete content its count, density and keyword score come out as
0, 0 and 70. -/
theorem claim_C7_witness :
    keyword_occurrences "best seo tools online" "seo tools" = 0 ∧
    keyword_density "best seo tools online" "seo tools" = 0 ∧
    keyword_score "best seo tools online" "seo tools" = 70 :=
  (claim_C7 "seo tools" (by decide)).1 "best seo tools online"

/-- Domain of the i-th mock entry, written from C9. -/
def mockDomain : ℕ → String
  | 0 => "https://example.com/"
  | 1 => "https://example.org/"
  | _ => "https://example.net/"

/-- Spec-side mock scrape, written from C9: the first min(n,3) entries of
the fixed list, entry i (counting from 0) having position i+1, title
"Example Page i+1 for keyword", and a URL built from the keyword with
spaces replaced by hyphens. -/
def scrape_spec (keyword : String) (n : ℕ) : List SerpResult :=
  (List.range (min n 3)).map fun i =>
    { position := i + 1
      title := "Example Page " ++ toString (i + 1) ++ " for " ++ keyword
      url := mockDomain i ++ hyphenate keyword }

/-- C9: the scraper is mocked: for every keyword and requested count n it
returns exactly the first min(n,3) entries of the fixed mock list, so it
never returns more than 3 results, in particular 3 at the default request
of 10. -/
theorem claim_C9 (keyword : String) (n : ℕ) :
    scrape_top_results keyword n = scrape_spec keyword n ∧
    (scrape_top_results keyword n).length = min n 3 ∧
    (scrape_top_results keyword n).length ≤ 3 ∧
    (scrape_top_results keyword 10).length = 3 := by
  have hlen : (scrape_top_results keyword n).length = min n 3 := by
    simp [scrape_top_results]
  refine ⟨?_, hlen, by rw [hlen]; exact min_le_right n 3, rfl⟩
  · match n with
    | 0 => rfl
    | 1 => rfl
    | 2 => rfl
    | (m + 3) =>
      have h3 : min (m + 3) 3 = 3 := by omega
      rw [scrape_spec, h3]
      show List.take (m + 3) _ = _
      rw [List.take_of_length_le (by simp)]
      rfl

/-- C10: both failure modes are surfaced as returned values, not exceptions:
with an empty OpenAI API key `generate_ai_response` returns the fixed
configuration-error string whatever the API would answer (so without
consulting it); with a non-empty key an API exception comes back as an
"Error generating response: ..." string; and a failed page fetch makes
`extract_page_data` return the dict holding only the url and the error
string instead of propagating the exception. -/
theorem claim_C10 :
    (∀ (api₁ api₂ : String → Except String String) (prompt₁ prompt₂ : String),
      generate_ai_response "" api₁ prompt₁ = generate_ai_response "" api₂ prompt₂ ∧
      generate_ai_response "" api₁ prompt₁ =
        "Error: OpenAI API key not configured. Please add it in the sidebar.") ∧
    (∀ (key : String) (api : String → Except String String) (prompt e : String),
      key ≠ "" → api prompt = Except.error e →
      generate_ai_response key api prompt = "Error generating response: " ++ e) ∧
    (∀ (url e : String) (fetch : String → Except String PageData),
      fetch url = Except.error e →
      extract_page_data url fetch = ExtractResult.failure url e) := by
  refine ⟨fun api₁ api₂ prompt₁ prompt₂ => ⟨rfl, rfl⟩, ?_, ?_⟩
  · intro key api prompt e hk he
    rw [generate_ai_response, if_neg hk, he]
  · intro url e fetch he
    rw [extract_page_data, he]

/-- Witness for C10: a failing API call and a failing fetch at concrete
inputs produce the error-string returns. -/
theorem claim_C10_witness :
    generate_ai_response "sk-test" (fun _ => Except.error "boom") "hello" =
      "Error generating response: " ++ "boom" ∧
    extract_page_data "https://example.com/x" (fun _ => Except.error "timeout") =
      ExtractResult.failure "https://example.com/x" "timeout" :=
  ⟨claim_C10.2.1 "sk-test" (fun _ => Except.error "boom") "hello" "boom"
      (by decide) rfl,
    claim_C10.2.2 "https://example.com/x" "timeout"
      (fun _ => Except.error "timeout") rfl⟩

end SeoApp

